import Mathlib

/-!
Verification of the cargo-remote orchestrator (src/main.rs) against its
natural-language specification.  The embedding below translates the
program's pure decision logic — config resolution, project-root search,
remote-path derivation, argument construction and the sequential
pipeline — into Lean definitions, and proves (or refutes) the spec's
claims about them.
-/

namespace CargoRemote

/-! ## TOML configuration model

`toml::Value` as used by main.rs: the program only distinguishes string
values, tables, and everything else (`c["remote"].as_str()`).  Indexing a
table with a missing key panics in the toml crate (`Index for Value` is
`self.get(index).expect(..)`), as does indexing a non-table value; we
model that panic as a `none` result of `Toml.index`, interpreted as an
abort by the resolver below. -/

inductive Toml where
  | str : String → Toml
  | table : List (String × Toml) → Toml
  | nonStr : Toml

/-- First-match lookup in a table's key/value list (toml table `get`). -/
def Toml.lookup : List (String × Toml) → String → Option Toml
  | [], _ => none
  | (k, v) :: rest, key => if k = key then some v else Toml.lookup rest key

/-- Indexing `value[key]` from the toml crate; `none` means the lookup panics
("index not found"): a table without the key, or a non-table value. -/
def Toml.index (v : Toml) (key : String) : Option Toml :=
  match v with
  | .table kvs => Toml.lookup kvs key
  | _ => none

/-- The toml crate's `Value::as_str`: `some` exactly on string values. -/
def Toml.asStr : Toml → Option String
  | .str s => some s
  | _ => none

/-- The observable state of one candidate config file: absent on disk,
present but not parseable as TOML, or parsed to a value. -/
inductive ConfigSource where
  | missing : ConfigSource
  | malformed : ConfigSource
  | parsed : Toml → ConfigSource

/-- Function `config_from_file` (main.rs:83-110): a read error or parse error is
logged at most as a warning and yields `None`; otherwise the parsed
value. -/
def config_from_file : ConfigSource → Option Toml
  | .missing => none
  | .malformed => none
  | .parsed v => some v

/-- Outcome of the build-server resolution: a host, the `exit(-3)`
no-remote fatal error, or a panic (from indexing a parsed config that
lacks a `remote` key). -/
inductive ResolveResult where
  | host : String → ResolveResult
  | noRemote : ResolveResult
  | panicked : ResolveResult
deriving DecidableEq

/-- The `flat_map(..).next()` chain of main.rs:180-185 over the parsed
configs: the first config is asked for `c["remote"].as_str()`;
a `None` config (missing/malformed file) is skipped; a parsed config
without a `remote` key panics (`Except.error`); a `remote` key that is
not a string is skipped by `as_str`. -/
def first_config_remote : List (Option Toml) → Except Unit (Option String)
  | [] => .ok none
  | none :: rest => first_config_remote rest
  | some c :: rest =>
    match c.index "remote" with
    | none => .error ()
    | some v =>
      match v.asStr with
      | some s => .ok (some s)
      | none => first_config_remote rest

/-- The `build_server` resolution (main.rs:179-189): the CLI value if
present, else the first config-file `remote` string, else `exit(-3)`. -/
def resolve_build_server (cli : Option String) (sources : List ConfigSource) :
    ResolveResult :=
  match cli with
  | some s => .host s
  | none =>
    match first_config_remote (sources.map config_from_file) with
    | .error () => .panicked
    | .ok (some s) => .host s
    | .ok none => .noRemote

/-- The resolution procedure as the claim words it: CLI first; otherwise
the first source that exists, parses, and contains a non-empty string
`remote` value wins; every other source is skipped without aborting;
no value at all means the no-remote fatal exit. -/
def first_nonempty_remote_claim : List ConfigSource → Option String
  | [] => none
  | .parsed v :: rest =>
    match v.index "remote" with
    | some (.str s) => if s = "" then first_nonempty_remote_claim rest else some s
    | _ => first_nonempty_remote_claim rest
  | _ :: rest => first_nonempty_remote_claim rest

/-- The whole resolver as the claim words it (never panics). -/
def resolve_build_server_claim (cli : Option String) (sources : List ConfigSource) :
    ResolveResult :=
  match cli with
  | some s => .host s
  | none =>
    match first_nonempty_remote_claim sources with
    | some s => .host s
    | none => .noRemote

/-- The resolution procedure as amended: a parsed source lacking a
`remote` key aborts with a panic; a non-string `remote` is skipped; an
empty-string `remote` wins (it is not skipped). -/
def first_remote_amended : List ConfigSource → Except Unit (Option String)
  | [] => .ok none
  | .missing :: rest => first_remote_amended rest
  | .malformed :: rest => first_remote_amended rest
  | .parsed v :: rest =>
    match v.index "remote" with
    | none => .error ()
    | some w =>
      match w.asStr with
      | some s => .ok (some s)
      | none => first_remote_amended rest

/-- The whole resolver as amended. -/
def resolve_build_server_amended (cli : Option String) (sources : List ConfigSource) :
    ResolveResult :=
  match cli with
  | some s => .host s
  | none =>
    match first_remote_amended sources with
    | .error () => .panicked
    | .ok (some s) => .host s
    | .ok none => .noRemote

/-! ## Project-root discovery

Absolute directories are component lists with the deepest component
first, so the parent of `c :: ps` is `ps` and the filesystem root is
`[]`; the ancestors of a path (itself included) are exactly the
suffixes of its list.  `fs p = true` means directory `p` contains a
`Cargo.toml` file. -/

abbrev AbsDir := List String

/-- Render a directory the way main.rs strings paths (`/a/b`; `/` for
the root). -/
def dirString (p : AbsDir) : String :=
  "/" ++ String.intercalate "/" p.reverse

/-- Directory `q` is `p` itself or an ancestor of `p`. -/
def isAncestor (q p : AbsDir) : Prop := ∃ pre, pre ++ q = p

/-- The upward `Cargo.toml` search loop of main.rs:141-158: check the
current directory, else recurse into the parent; `none` when the root
is passed without a hit (the `parent()`-returns-`None` branch, which
exits with code -8). -/
def find_cargo_root (fs : AbsDir → Bool) : AbsDir → Option AbsDir
  | [] => if fs [] then some [] else none
  | c :: ps => if fs (c :: ps) then some (c :: ps) else find_cargo_root fs ps

/-- Outcome of project location: fatal exit, a panic (the bare
`unwrap()` on `metadata_cmd.exec()`), or a project directory. -/
inductive LocateResult where
  | fatal : Int → LocateResult
  | panicked : LocateResult
  | ok : AbsDir → LocateResult
deriving DecidableEq

/-- Project location (main.rs:141-166): find the nearest ancestor with a
`Cargo.toml`, hand its manifest to `cargo metadata`, and use the
reported `workspace_root` as the project directory.  `ws` is the
external `cargo metadata` oracle: for the manifest found at a directory
it returns the workspace root (an ancestor of that directory when the
package is a member of a larger workspace), or `none` when the metadata
command fails, in which case the `unwrap()` panics. -/
def locate_project (fs : AbsDir → Bool) (ws : AbsDir → Option AbsDir)
    (cwd : AbsDir) : LocateResult :=
  match find_cargo_root fs cwd with
  | none => .fatal (-8)
  | some r =>
    match ws r with
    | none => .panicked
    | some d => .ok d

/-! ## Remote build path

`DefaultHasher` is SipHash-1-3 keyed with two zero words; it is a fixed,
deterministic function of the fed bytes.  We model hashing the project
directory as SipHash-1-3 of the UTF-8 bytes of its rendered path (the
component-separator normalisation of `Hash for Path` is the identity on
the already-normalised absolute paths produced by `dirString`).
All words are naturals reduced mod 2^64. -/

def w64 (a : Nat) : Nat := a % (2 ^ 64)

def wadd (a b : Nat) : Nat := w64 (a + b)

def rotl64 (a r : Nat) : Nat := w64 (a * 2 ^ r) ||| (w64 a / 2 ^ (64 - r))

structure SipState where
  v0 : Nat
  v1 : Nat
  v2 : Nat
  v3 : Nat

/-- One SipRound. -/
def sipRound (s : SipState) : SipState :=
  let v0 := wadd s.v0 s.v1
  let v1 := rotl64 s.v1 13
  let v1 := v1 ^^^ v0
  let v0 := rotl64 v0 32
  let v2 := wadd s.v2 s.v3
  let v3 := rotl64 s.v3 16
  let v3 := v3 ^^^ v2
  let v0 := wadd v0 v3
  let v3 := rotl64 v3 21
  let v3 := v3 ^^^ v0
  let v2 := wadd v2 v1
  let v1 := rotl64 v1 17
  let v1 := v1 ^^^ v2
  let v2 := rotl64 v2 32
  ⟨v0, v1, v2, v3⟩

/-- Absorb one 8-byte message word (one compression round: SipHash-1-x). -/
def sipCompress (m : Nat) (s : SipState) : SipState :=
  let s := { s with v3 := s.v3 ^^^ m }
  let s := sipRound s
  { s with v0 := s.v0 ^^^ m }

/-- Finalisation: absorb the last word, xor 0xff into v2, three rounds,
fold the state (SipHash-x-3). -/
def sipFinish (m : Nat) (s : SipState) : Nat :=
  let s := sipCompress m s
  let s := { s with v2 := s.v2 ^^^ 0xff }
  let s := sipRound (sipRound (sipRound s))
  s.v0 ^^^ s.v1 ^^^ s.v2 ^^^ s.v3

/-- Little-endian value of a byte list. -/
def leVal : List Nat → Nat
  | [] => 0
  | b :: bs => b % 256 + 256 * leVal bs

/-- Main SipHash loop: whole 8-byte words through compression, the final
partial word padded with the message length in the top byte. -/
def sipLoop (len : Nat) (s : SipState) : List Nat → Nat
  | b0 :: b1 :: b2 :: b3 :: b4 :: b5 :: b6 :: b7 :: rest =>
    sipLoop len (sipCompress (leVal [b0, b1, b2, b3, b4, b5, b6, b7]) s) rest
  | rest => sipFinish (leVal rest + len % 256 * 2 ^ 56) s

/-- SipHash-1-3 with the zero key, as `DefaultHasher::new()` uses. -/
def sipHash13 (bytes : List Nat) : Nat :=
  sipLoop bytes.length
    ⟨0x736f6d6570736575, 0x646f72616e646f6d, 0x6c7967656e657261, 0x7465646279746573⟩
    bytes

/-- The hash of the project directory fed to the remote-path format
(main.rs:192-193). -/
def project_dir_hash (d : AbsDir) : Nat :=
  sipHash13 (((dirString d).toUTF8).toList.map (fun b => b.toNat))

/-- The `build_path` format of main.rs:194. -/
def build_path (d : AbsDir) : String :=
  "~/remote-builds/" ++ toString (project_dir_hash d) ++ "/"

/-! ## Invocation options and argument construction -/

/-- The parsed CLI options of `Opts::Remote` (main.rs:17-79) that the
orchestration logic consumes. -/
structure Opts where
  remote : Option String
  build_env : String
  rustup_default : String
  env : String
  copy_back : Option (Option String)
  no_copy_lock : Bool
  hidden : Bool
  command : String
  options : List String

/-- Rust's `Vec::join(" ")`. -/
def joinSpace : List String → String
  | [] => ""
  | [x] => x
  | x :: y :: rest => x ++ " " ++ joinSpace (y :: rest)

/-- The outbound rsync argument list (main.rs:198-215): fixed flags, the
`target` exclusion, the dotfile exclusion unless `--transfer-hidden`,
the remote-side command that creates `remote-builds` before running
rsync, then source `<project dir>/` and destination `<server>:<build
path>`. -/
def rsync_to_args (hidden : Bool) (dir server bp : String) : List String :=
  ["-a", "--delete", "--compress", "--info=progress2", "--exclude", "target"]
    ++ (if hidden then [] else ["--exclude", ".*"])
    ++ ["--rsync-path", "mkdir -p remote-builds && rsync",
        dir ++ "/", server ++ ":" ++ bp]

/-- The single remote shell command (main.rs:247-256), the format string
`source {}; rustup default {}; cd {}; cd {}; {} cargo {} {}` with the
relative path trimmed and the options space-joined. -/
def build_command (env rustup bp rel benv cmd : String) (opts : List String) :
    String :=
  "source " ++ env ++ "; rustup default " ++ rustup ++ "; cd " ++ bp
    ++ "; cd " ++ rel.trim ++ "; " ++ benv ++ " cargo " ++ cmd ++ " "
    ++ joinSpace opts

/-- Join shell statements with a semicolon and a space. -/
def joinStmts : List String → String
  | [] => ""
  | [x] => x
  | x :: y :: rest => x ++ "; " ++ joinStmts (y :: rest)

/-- The remote command as the spec words it: the parts in order — source
the environment profile, select the toolchain, enter the build
directory, enter the relative subdirectory, then the build-env prefix
and the cargo invocation carrying the space-joined, order-preserving
options — joined as shell statements. -/
def build_command_spec (env rustup bp rel benv cmd : String)
    (opts : List String) : String :=
  joinStmts
    ["source " ++ env,
     "rustup default " ++ rustup,
     "cd " ++ bp,
     "cd " ++ rel.trim,
     benv ++ " cargo " ++ cmd ++ " " ++ joinSpace opts]

/-- Source and destination of the inbound artifact rsync when
`--copy-back` is present (main.rs:272-288): an absent attached value
becomes the empty file name. -/
def copy_back_paths (cb : Option (Option String)) (server bp dir : String) :
    Option (String × String) :=
  cb.map fun fn =>
    let f := fn.getD ""
    (server ++ ":" ++ bp ++ "/target/" ++ f, dir ++ "/target/" ++ f)

/-- Source and destination of the inbound `Cargo.lock` rsync
(main.rs:309-310). -/
def lock_paths (server bp dir : String) : String × String :=
  (server ++ ":" ++ bp ++ "/Cargo.lock", dir ++ "/Cargo.lock")

/-- Everything the orchestrator derives for one invocation, given the
resolved server, the located project directory and the stdout of the
`realpath` call. -/
structure Plan where
  buildPath : String
  rsyncToArgs : List String
  buildCommand : String
  copyBackPaths : Option (String × String)
  lockPaths : String × String

def mkPlan (o : Opts) (server : String) (d : AbsDir) (relOut : String) : Plan :=
  let bp := build_path d
  let dir := dirString d
  { buildPath := bp
    rsyncToArgs := rsync_to_args o.hidden dir server bp
    buildCommand :=
      build_command o.env o.rustup_default bp relOut o.build_env o.command o.options
    copyBackPaths := copy_back_paths o.copy_back server bp dir
    lockPaths := lock_paths server bp dir }

/-! ## The sequential pipeline

main.rs runs four external processes in order: the outbound rsync, the
`realpath` call, the ssh build, and the inbound rsyncs.  Each call's
`output()` either fails to run the process at all (`spawnErr`, the
`Err` branch of `unwrap_or_else`, a fatal exit) or returns a status:
`ran success code`.  Only the ssh status is ever inspected; the rsync
and realpath statuses are dropped on the floor. -/

inductive Step where
  | rsyncOut : Step
  | realpath : Step
  | sshBuild : Step
  | rsyncArtifacts : Step
  | rsyncLock : Step
deriving DecidableEq

inductive ProcResult where
  | spawnErr : ProcResult
  | ran : Bool → Option Int → ProcResult
deriving DecidableEq

/-- Final process outcome: the value passed to `exit`, or falling off
the end of `main` (exit 0). -/
inductive ExitOutcome where
  | code : Int → ExitOutcome
deriving DecidableEq

/-- Last line of main.rs (324-326): exit with the ssh status code
(1 when the status carries no code) when the build failed, else 0. -/
def final_exit (ok : Bool) (c : Option Int) : ExitOutcome :=
  if ok then .code 0 else .code (c.getD 1)

/-- The two inbound sync steps and the exit propagation
(main.rs:272-326), entered with the ssh build's status in hand. -/
def after_build (cb : Option (Option String)) (ncl : Bool)
    (out : Step → ProcResult) (ok : Bool) (c : Option Int) :
    List Step × ExitOutcome :=
  let pre : List Step := [.rsyncOut, .realpath, .sshBuild]
  let artifacts :=
    if cb.isSome then
      match out .rsyncArtifacts with
      | .spawnErr => some (pre ++ [Step.rsyncArtifacts], ExitOutcome.code (-6))
      | .ran _ _ => none
    else none
  match artifacts with
  | some result => result
  | none =>
    let t1 := pre ++ (if cb.isSome then [Step.rsyncArtifacts] else [])
    if ncl then (t1, final_exit ok c)
    else
      match out .rsyncLock with
      | .spawnErr => (t1 ++ [Step.rsyncLock], ExitOutcome.code (-7))
      | .ran _ _ => (t1 ++ [Step.rsyncLock], final_exit ok c)

/-- The pipeline from the outbound sync on (main.rs:198-326): the trace
of steps attempted, in order, and the final exit outcome.  `out` gives
each external process's result. -/
def run_pipeline (cb : Option (Option String)) (ncl : Bool)
    (out : Step → ProcResult) : List Step × ExitOutcome :=
  match out .rsyncOut with
  | .spawnErr => ([.rsyncOut], .code (-4))
  | .ran _ _ =>
    match out .realpath with
    | .spawnErr => ([.rsyncOut, .realpath], .code (-9))
    | .ran _ _ =>
      match out .sshBuild with
      | .spawnErr => ([.rsyncOut, .realpath, .sshBuild], .code (-5))
      | .ran ok c => after_build cb ncl out ok c

/-! ## Reserved exit codes -/

/-- The failure kinds the spec reserves exit codes for. -/
inductive FailureKind where
  | metadataRead : FailureKind
  | noRemoteConfigured : FailureKind
  | outboundSync : FailureKind
  | remoteBuildInvocation : FailureKind
  | artifactCopyBack : FailureKind
  | lockCopyBack : FailureKind
  | currentDirRead : FailureKind
  | relativePath : FailureKind
  | manifestNotFound : FailureKind
deriving DecidableEq, Fintype

/-- The exit code each failure kind terminates with in main.rs.
`metadataRead` has no reserved code: `metadata_cmd.exec().unwrap()`
(main.rs:165) terminates by panicking, not via `exit`. -/
def reserved_exit_code : FailureKind → Option Int
  | .metadataRead => none
  | .noRemoteConfigured => some (-3)
  | .outboundSync => some (-4)
  | .remoteBuildInvocation => some (-5)
  | .artifactCopyBack => some (-6)
  | .lockCopyBack => some (-7)
  | .currentDirRead => some (-8)
  | .relativePath => some (-9)
  | .manifestNotFound => some (-8)

/-! ## Concrete instances used to exercise the model -/

/-- External-process results where the outbound rsync runs but reports a
non-zero status (exit 23, rsync's partial-transfer error) and every
other process succeeds. -/
def out_rsync_fails : Step → ProcResult := fun s =>
  match s with
  | .rsyncOut => .ran false (some 23)
  | _ => .ran true (some 0)

/-- A filesystem in which `/a` and `/a/b` both hold a `Cargo.toml`
(directories are deepest-component-first lists). -/
def fs_workspace : AbsDir → Bool := fun p =>
  p == ["a"] || p == ["b", "a"]

/-- A `cargo metadata` oracle for `fs_workspace`: `/a` is a workspace
whose member crate lives at `/a/b`, so the metadata for the manifest
found at `/a/b` reports workspace root `/a`. -/
def ws_workspace : AbsDir → Option AbsDir := fun p =>
  if p == ["b", "a"] then some ["a"] else some p

/-! ## Helper lemmas -/

theorem data_append (s t : String) : (s ++ t).data = s.data ++ t.data := by
  cases s; cases t; rfl

/-- A string ending in a slash is never the dotfile-exclusion pattern. -/
theorem append_slash_ne_dotstar (s : String) : s ++ "/" ≠ ".*" := by
  intro h
  have h2 : s.data ++ ['/'] = ['.', '*'] := by
    have h3 := congrArg String.data h
    rw [data_append] at h3
    exact h3
  have h4 := congrArg List.getLast? h2
  rw [List.getLast?_concat] at h4
  simp at h4

/-- A `host:path` string always contains a colon, so it is never the
dotfile-exclusion pattern. -/
theorem colon_ne_dotstar (a b : String) : a ++ ":" ++ b ≠ ".*" := by
  intro h
  have h2 : ':' ∈ (a ++ ":" ++ b).data := by
    rw [data_append, data_append]
    simp
  rw [h] at h2
  simp at h2

theorem dotstar_not_mem (dir server bp : String) :
    (".*" : String) ∉ rsync_to_args true dir server bp := by
  intro h
  simp [rsync_to_args] at h
  rcases h with h | h
  · exact append_slash_ne_dotstar dir h.symm
  · exact colon_ne_dotstar server bp h.symm

theorem first_config_remote_map (sources : List ConfigSource) :
    first_config_remote (sources.map config_from_file) =
      first_remote_amended sources := by
  induction sources with
  | nil => rfl
  | cons s rest ih =>
    cases s with
    | missing => simpa [config_from_file, first_config_remote, first_remote_amended] using ih
    | malformed => simpa [config_from_file, first_config_remote, first_remote_amended] using ih
    | parsed v =>
      simp only [List.map, config_from_file, first_config_remote, first_remote_amended]
      cases hidx : v.index "remote" with
      | none => simp only [hidx]
      | some w =>
        simp only [hidx]
        cases hs : w.asStr with
        | none => simpa only [hs] using ih
        | some sVal => simp only [hs]

theorem run_pipeline_ran (cb : Option (Option String)) (ncl : Bool)
    (out : Step → ProcResult) (ok : Bool) (c : Option Int)
    (h1 : out .rsyncOut ≠ .spawnErr) (h2 : out .realpath ≠ .spawnErr)
    (h3 : out .sshBuild = .ran ok c) :
    run_pipeline cb ncl out = after_build cb ncl out ok c := by
  unfold run_pipeline
  cases hro : out .rsyncOut with
  | spawnErr => exact absurd hro h1
  | ran a b =>
    cases hrp : out .realpath with
    | spawnErr => exact absurd hrp h2
    | ran x y => rw [h3]

theorem after_build_trace (cb : Option (Option String)) (ncl : Bool)
    (out : Step → ProcResult) (ok : Bool) (c : Option Int)
    (ha : cb.isSome = true → out .rsyncArtifacts ≠ .spawnErr)
    (hl : ncl = false → out .rsyncLock ≠ .spawnErr) :
    after_build cb ncl out ok c =
      ([Step.rsyncOut, Step.realpath, Step.sshBuild]
        ++ (if cb.isSome then [Step.rsyncArtifacts] else [])
        ++ (if ncl then [] else [Step.rsyncLock]), final_exit ok c) := by
  unfold after_build
  cases hcb : cb.isSome with
  | false =>
    cases hncl : ncl with
    | false =>
      cases hlk : out .rsyncLock with
      | spawnErr => exact absurd hlk (hl hncl)
      | ran a b => simp [hcb, hncl, hlk]
    | true => simp [hcb, hncl]
  | true =>
    cases hart : out .rsyncArtifacts with
    | spawnErr => exact absurd hart (ha hcb)
    | ran a b =>
      cases hncl : ncl with
      | false =>
        cases hlk : out .rsyncLock with
        | spawnErr => exact absurd hlk (hl hncl)
        | ran x y => simp [hcb, hart, hncl, hlk]
      | true => simp [hcb, hart, hncl]

theorem find_cargo_root_nearest (fs : AbsDir → Bool) :
    ∀ (cwd r : AbsDir), find_cargo_root fs cwd = some r →
      isAncestor r cwd ∧ fs r = true
        ∧ ∀ q, isAncestor q cwd → fs q = true → q.length ≤ r.length := by
  intro cwd
  induction cwd with
  | nil =>
    intro r h
    by_cases hfs : fs []
    · simp [find_cargo_root, hfs] at h
      subst h
      refine ⟨⟨[], rfl⟩, hfs, ?_⟩
      intro q hq _
      obtain ⟨pre, hpre⟩ := hq
      have : q = [] := by
        cases List.append_eq_nil.mp hpre with
        | intro h1 h2 => exact h2
      simp [this]
    · simp [find_cargo_root, hfs] at h
  | cons c ps ih =>
    intro r h
    by_cases hfs : fs (c :: ps)
    · simp [find_cargo_root, hfs] at h
      subst h
      refine ⟨⟨[], rfl⟩, hfs, ?_⟩
      intro q hq _
      obtain ⟨pre, hpre⟩ := hq
      have hlen := congrArg List.length hpre
      simp [List.length_append] at hlen
      simp only [List.length_cons]
      omega
    · simp [find_cargo_root, hfs] at h
      obtain ⟨hanc, hfsr, hmax⟩ := ih r h
      obtain ⟨pre, hpre⟩ := hanc
      refine ⟨⟨c :: pre, by simp [hpre]⟩, hfsr, ?_⟩
      intro q hq hfq
      obtain ⟨pre2, hpre2⟩ := hq
      cases pre2 with
      | nil =>
        simp at hpre2
        subst hpre2
        exact absurd hfq (by simp [hfs])
      | cons x pre3 =>
        have hq2 : pre3 ++ q = ps := by
          have := congrArg List.tail hpre2
          simpa using this
        exact hmax q ⟨pre3, hq2⟩ hfq

theorem find_cargo_root_none (fs : AbsDir → Bool) :
    ∀ cwd, find_cargo_root fs cwd = none →
      ∀ q, isAncestor q cwd → fs q = false := by
  intro cwd
  induction cwd with
  | nil =>
    intro h q hq
    obtain ⟨pre, hpre⟩ := hq
    have hq0 : q = [] := (List.append_eq_nil.mp hpre).2
    subst hq0
    by_cases hfs : fs []
    · simp [find_cargo_root, hfs] at h
    · simpa using hfs
  | cons c ps ih =>
    intro h q hq
    by_cases hfs : fs (c :: ps)
    · simp [find_cargo_root, hfs] at h
    · simp [find_cargo_root, hfs] at h
      obtain ⟨pre, hpre⟩ := hq
      cases pre with
      | nil =>
        simp at hpre
        subst hpre
        simpa using hfs
      | cons x pre2 =>
        have hq2 : pre2 ++ q = ps := by
          have := congrArg List.tail hpre
          simpa using this
        exact ih h q ⟨pre2, hq2⟩

/-- Whatever the inbound steps do, the ssh build step is always part of
the trace once the pipeline has got past the realpath call. -/
theorem sshBuild_mem_after_build (cb : Option (Option String)) (ncl : Bool)
    (out : Step → ProcResult) (ok : Bool) (c : Option Int) :
    Step.sshBuild ∈ (after_build cb ncl out ok c).1 := by
  unfold after_build
  cases hcb : cb.isSome with
  | false =>
    cases hncl : ncl with
    | false =>
      cases hlk : out .rsyncLock with
      | spawnErr => simp [hcb, hncl, hlk]
      | ran a b => simp [hcb, hncl, hlk]
    | true => simp [hcb, hncl]
  | true =>
    cases hart : out .rsyncArtifacts with
    | spawnErr => simp [hcb, hart]
    | ran a b =>
      cases hncl : ncl with
      | false =>
        cases hlk : out .rsyncLock with
        | spawnErr => simp [hcb, hart, hncl, hlk]
        | ran x y => simp [hcb, hart, hncl, hlk]
      | true => simp [hcb, hart, hncl]

/-! ## Claim theorems -/

/-- C1 (counterexample): the outbound rsync runs but reports a non-zero
status; the claim says this is fatal with exit code -4 and no later step
runs, yet the pipeline carries on through the remote build and the lock
copy-back and finally exits 0. -/
theorem c1_counterexample :
    out_rsync_fails .rsyncOut = .ran false (some 23)
    ∧ run_pipeline none false out_rsync_fails =
        ([Step.rsyncOut, Step.realpath, Step.sshBuild, Step.rsyncLock],
          ExitOutcome.code 0)
    ∧ ExitOutcome.code 0 ≠ ExitOutcome.code (-4)
    ∧ Step.sshBuild ∈ (run_pipeline none false out_rsync_fails).1 :=
  ⟨rfl, rfl, by decide, by decide⟩

/-- C1 (amended): a synchronization step whose external process cannot be
spawned is fatal with that step's distinct exit code (-4 outbound, -6
artifact copy-back, -7 lock copy-back) and no later step runs; a
synchronization process that does run is never inspected for its
status, so a non-zero sync status is ignored and execution proceeds to
the remote build. -/
theorem c1_spawn_failures_fatal :
    ∀ (cb : Option (Option String)) (ncl : Bool) (out : Step → ProcResult),
      (out .rsyncOut = .spawnErr →
        run_pipeline cb ncl out = ([Step.rsyncOut], ExitOutcome.code (-4)))
      ∧ (∀ ok c, out .rsyncOut ≠ .spawnErr → out .realpath ≠ .spawnErr →
          out .sshBuild = .ran ok c → cb.isSome = true →
          out .rsyncArtifacts = .spawnErr →
          run_pipeline cb ncl out =
            ([Step.rsyncOut, Step.realpath, Step.sshBuild, Step.rsyncArtifacts],
              ExitOutcome.code (-6)))
      ∧ (∀ ok c, out .rsyncOut ≠ .spawnErr → out .realpath ≠ .spawnErr →
          out .sshBuild = .ran ok c →
          (cb.isSome = true → out .rsyncArtifacts ≠ .spawnErr) →
          ncl = false → out .rsyncLock = .spawnErr →
          run_pipeline cb ncl out =
            ([Step.rsyncOut, Step.realpath, Step.sshBuild]
              ++ (if cb.isSome then [Step.rsyncArtifacts] else [])
              ++ [Step.rsyncLock], ExitOutcome.code (-7)))
      ∧ (∀ b c, out .rsyncOut = .ran b c → out .realpath ≠ .spawnErr →
          out .sshBuild ≠ .spawnErr →
          Step.sshBuild ∈ (run_pipeline cb ncl out).1) := by
  intro cb ncl out
  refine ⟨?_, ?_, ?_, ?_⟩
  · intro h
    unfold run_pipeline
    rw [h]
  · intro ok c h1 h2 h3 hcb hart
    rw [run_pipeline_ran cb ncl out ok c h1 h2 h3]
    unfold after_build
    simp [hcb, hart]
  · intro ok c h1 h2 h3 hart hncl hlk
    rw [run_pipeline_ran cb ncl out ok c h1 h2 h3]
    unfold after_build
    cases hcb : cb.isSome with
    | false => simp [hcb, hncl, hlk]
    | true =>
      cases ha2 : out .rsyncArtifacts with
      | spawnErr => exact absurd ha2 (hart hcb)
      | ran a b => simp [hcb, ha2, hncl, hlk]
  · intro b c h1 h2 h3
    cases hss : out .sshBuild with
    | spawnErr => exact absurd hss h3
    | ran ok cc =>
      rw [run_pipeline_ran cb ncl out ok cc (by simp [h1]) h2 hss]
      exact sshBuild_mem_after_build cb ncl out ok cc

/-- C1 (witness): concrete runs hitting each spawn-failure exit and one
run past a failed outbound sync. -/
theorem c1_spawn_failures_fatal_witness :
    run_pipeline none false (fun _ => ProcResult.spawnErr) =
      ([Step.rsyncOut], ExitOutcome.code (-4))
    ∧ run_pipeline (some none) false
        (fun s => match s with
          | .rsyncArtifacts => ProcResult.spawnErr
          | _ => ProcResult.ran true (some 0)) =
        ([Step.rsyncOut, Step.realpath, Step.sshBuild, Step.rsyncArtifacts],
          ExitOutcome.code (-6))
    ∧ run_pipeline none false
        (fun s => match s with
          | .rsyncLock => ProcResult.spawnErr
          | _ => ProcResult.ran true (some 0)) =
        ([Step.rsyncOut, Step.realpath, Step.sshBuild, Step.rsyncLock],
          ExitOutcome.code (-7))
    ∧ Step.sshBuild ∈ (run_pipeline none false out_rsync_fails).1 := by
  refine ⟨(c1_spawn_failures_fatal none false _).1 rfl, ?_, ?_, ?_⟩
  · exact (c1_spawn_failures_fatal (some none) false _).2.1 true (some 0)
      (by decide) (by decide) rfl rfl rfl
  · have h := (c1_spawn_failures_fatal none false
        (fun s => match s with
          | .rsyncLock => ProcResult.spawnErr
          | _ => ProcResult.ran true (some 0))).2.2.1 true (some 0)
        (by decide) (by decide) rfl (by decide) rfl rfl
    simpa using h
  · exact (c1_spawn_failures_fatal none false out_rsync_fails).2.2.2 false (some 23)
      rfl (by decide) (by decide)

/-- C2 (counterexample): with no CLI remote, a project-local config file
that exists and parses but lacks a `remote` key does not get skipped
with a warning — the toml index panics — whereas the claim's resolution
would fall through to "no remote configured". -/
theorem c2_counterexample :
    resolve_build_server none
        [ConfigSource.parsed (Toml.table []), ConfigSource.missing] =
      ResolveResult.panicked
    ∧ resolve_build_server_claim none
        [ConfigSource.parsed (Toml.table []), ConfigSource.missing] =
      ResolveResult.noRemote
    ∧ ResolveResult.panicked ≠ ResolveResult.noRemote :=
  ⟨rfl, rfl, by decide⟩

/-- C2 (amended): the CLI value always wins; otherwise the sources are
consulted in order, a missing or malformed file is skipped with at most
a warning, a parsed file lacking a `remote` key aborts with a panic, a
non-string `remote` value is skipped, and the first string `remote`
value (empty or not) wins; if nothing yields a value the program exits
with the reserved no-remote code. -/
theorem c2_resolution_amended :
    (∀ (s : String) (sources : List ConfigSource),
        resolve_build_server (some s) sources = ResolveResult.host s)
    ∧ (∀ (cli : Option String) (sources : List ConfigSource),
        resolve_build_server cli sources =
          resolve_build_server_amended cli sources)
    ∧ reserved_exit_code .noRemoteConfigured = some (-3) := by
  refine ⟨fun s sources => rfl, fun cli sources => ?_, rfl⟩
  cases cli with
  | some s => rfl
  | none =>
    unfold resolve_build_server resolve_build_server_amended
    rw [first_config_remote_map]

/-- C3: when every external process can be spawned, a failing remote
build does not stop the pipeline — the artifact copy-back (if
requested) and then the lock copy-back (if not suppressed) still run,
in that order, and the final exit code is the build's own status code;
a successful build ends with exit code 0. -/
theorem c3_exit_propagation :
    ∀ (cb : Option (Option String)) (ncl : Bool) (out : Step → ProcResult),
      out .rsyncOut ≠ .spawnErr → out .realpath ≠ .spawnErr →
      (cb.isSome = true → out .rsyncArtifacts ≠ .spawnErr) →
      (ncl = false → out .rsyncLock ≠ .spawnErr) →
      (∀ c : Int, out .sshBuild = .ran false (some c) →
        run_pipeline cb ncl out =
          ([Step.rsyncOut, Step.realpath, Step.sshBuild]
            ++ (if cb.isSome then [Step.rsyncArtifacts] else [])
            ++ (if ncl then [] else [Step.rsyncLock]), ExitOutcome.code c))
      ∧ (∀ c, out .sshBuild = .ran true c →
          run_pipeline cb ncl out =
            ([Step.rsyncOut, Step.realpath, Step.sshBuild]
              ++ (if cb.isSome then [Step.rsyncArtifacts] else [])
              ++ (if ncl then [] else [Step.rsyncLock]), ExitOutcome.code 0)) := by
  intro cb ncl out h1 h2 ha hl
  constructor
  · intro c h3
    rw [run_pipeline_ran cb ncl out false (some c) h1 h2 h3,
      after_build_trace cb ncl out false (some c) ha hl]
    rfl
  · intro c h3
    rw [run_pipeline_ran cb ncl out true c h1 h2 h3,
      after_build_trace cb ncl out true c ha hl]
    rfl

/-- C3 (witness): a remote build failing with status 42, artifacts and
lock requested: both copy-backs run, in order, and the program exits
42. -/
theorem c3_exit_propagation_witness :
    run_pipeline (some (some "out.bin")) false
        (fun s => match s with
          | .sshBuild => ProcResult.ran false (some 42)
          | _ => ProcResult.ran true (some 0)) =
      ([Step.rsyncOut, Step.realpath, Step.sshBuild, Step.rsyncArtifacts,
        Step.rsyncLock], ExitOutcome.code 42) := by
  have h := (c3_exit_propagation (some (some "out.bin")) false
      (fun s => match s with
        | .sshBuild => ProcResult.ran false (some 42)
        | _ => ProcResult.ran true (some 0))
      (by decide) (by decide) (by decide) (by decide)).1 42 rfl
  simpa using h

/-- C9 (counterexample): two distinct failure kinds share an exit code:
a current-directory read failure and a missing manifest both terminate
with exit(-8), so the reserved codes are not pairwise distinct. -/
theorem c9_counterexample :
    reserved_exit_code .currentDirRead = reserved_exit_code .manifestNotFound
    ∧ FailureKind.currentDirRead ≠ FailureKind.manifestNotFound
    ∧ ¬ (∀ k k' : FailureKind, k ≠ k' →
          reserved_exit_code k ≠ reserved_exit_code k') := by
  refine ⟨rfl, by decide, fun h => ?_⟩
  exact h .currentDirRead .manifestNotFound (by decide) rfl

/-- C9 (amended): the reserved exit codes are pairwise distinct except
that the missing-manifest failure reuses the current-directory code -8,
and the metadata-read failure has no reserved code at all (it
terminates through a bare `unwrap()` panic). -/
theorem c9_exit_codes_amended :
    (∀ k k' : FailureKind, k ≠ k' →
        reserved_exit_code k = reserved_exit_code k' →
          (k = .currentDirRead ∧ k' = .manifestNotFound)
          ∨ (k = .manifestNotFound ∧ k' = .currentDirRead))
    ∧ reserved_exit_code .currentDirRead = some (-8)
    ∧ reserved_exit_code .manifestNotFound = some (-8)
    ∧ reserved_exit_code .metadataRead = none :=
  ⟨by decide, rfl, rfl, rfl⟩

/-- C9 (witness): the amended distinctness applied at the one colliding
pair. -/
theorem c9_exit_codes_amended_witness :
    (FailureKind.currentDirRead = .currentDirRead
      ∧ FailureKind.manifestNotFound = .manifestNotFound)
    ∨ (FailureKind.currentDirRead = .manifestNotFound
      ∧ FailureKind.manifestNotFound = .currentDirRead) :=
  c9_exit_codes_amended.1 .currentDirRead .manifestNotFound (by decide) rfl

/-- C10: a remote build status that is unsuccessful but carries no exit
code (e.g. the process was killed by a signal) makes the tool exit with
code 1, after the inbound sync steps have still been attempted. -/
theorem c10_signalled_build :
    ∀ (cb : Option (Option String)) (ncl : Bool) (out : Step → ProcResult),
      out .rsyncOut ≠ .spawnErr → out .realpath ≠ .spawnErr →
      (cb.isSome = true → out .rsyncArtifacts ≠ .spawnErr) →
      (ncl = false → out .rsyncLock ≠ .spawnErr) →
      out .sshBuild = .ran false none →
      run_pipeline cb ncl out =
        ([Step.rsyncOut, Step.realpath, Step.sshBuild]
          ++ (if cb.isSome then [Step.rsyncArtifacts] else [])
          ++ (if ncl then [] else [Step.rsyncLock]), ExitOutcome.code 1) := by
  intro cb ncl out h1 h2 ha hl h3
  rw [run_pipeline_ran cb ncl out false none h1 h2 h3,
    after_build_trace cb ncl out false none ha hl]
  rfl

/-- C10 (witness): a signalled build with lock copy-back still attempted
and final exit code 1. -/
theorem c10_signalled_build_witness :
    run_pipeline none false
        (fun s => match s with
          | .sshBuild => ProcResult.ran false none
          | _ => ProcResult.ran true (some 0)) =
      ([Step.rsyncOut, Step.realpath, Step.sshBuild, Step.rsyncLock],
        ExitOutcome.code 1) := by
  have h := c10_signalled_build none false
      (fun s => match s with
        | .sshBuild => ProcResult.ran false none
        | _ => ProcResult.ran true (some 0))
      (by decide) (by decide) (by decide) (by decide) rfl
  simpa using h

/-- C4 (counterexample): with `Cargo.toml` present at both `/a` and
`/a/b` and `/a` a workspace containing the crate at `/a/b`, running
from `/a/b/c` finds the manifest at `/a/b` but the project directory
used by all later steps is the workspace root `/a`, not the nearest
ancestor containing `Cargo.toml`. -/
theorem c4_counterexample :
    find_cargo_root fs_workspace ["c", "b", "a"] = some ["b", "a"]
    ∧ locate_project fs_workspace ws_workspace ["c", "b", "a"] =
        LocateResult.ok ["a"]
    ∧ (["a"] : AbsDir) ≠ ["b", "a"] := by
  refine ⟨by decide, by decide, by decide⟩

/-- C4 (amended): the upward search hands the metadata command the
manifest of the nearest ancestor (the current directory included) that
contains `Cargo.toml`; when no ancestor up to the filesystem root has
one, the program exits fatally with code -8; the project root used by
all subsequent steps is the workspace root the metadata command reports
for that manifest, which equals the found ancestor exactly when the
package is not a member of an enclosing workspace. -/
theorem c4_project_root_amended :
    ∀ (fs : AbsDir → Bool) (ws : AbsDir → Option AbsDir) (cwd : AbsDir),
      (∀ r, find_cargo_root fs cwd = some r →
        isAncestor r cwd ∧ fs r = true
          ∧ (∀ q, isAncestor q cwd → fs q = true → q.length ≤ r.length)
          ∧ locate_project fs ws cwd =
              (match ws r with
               | none => LocateResult.panicked
               | some d => LocateResult.ok d))
      ∧ (find_cargo_root fs cwd = none →
          locate_project fs ws cwd = LocateResult.fatal (-8)
            ∧ ∀ q, isAncestor q cwd → fs q = false) := by
  intro fs ws cwd
  constructor
  · intro r h
    obtain ⟨h1, h2, h3⟩ := find_cargo_root_nearest fs cwd r h
    refine ⟨h1, h2, h3, ?_⟩
    unfold locate_project
    rw [h]
  · intro h
    refine ⟨?_, find_cargo_root_none fs cwd h⟩
    unfold locate_project
    rw [h]

/-- C4 (witness): the amended statement applied at the workspace
instance. -/
theorem c4_project_root_amended_witness :
    isAncestor ["b", "a"] ["c", "b", "a"]
    ∧ fs_workspace ["b", "a"] = true
    ∧ (∀ q, isAncestor q ["c", "b", "a"] → fs_workspace q = true →
        q.length ≤ 2)
    ∧ locate_project fs_workspace ws_workspace ["c", "b", "a"] =
        LocateResult.ok ["a"] := by
  have h := (c4_project_root_amended fs_workspace ws_workspace
      ["c", "b", "a"]).1 ["b", "a"] (by decide)
  refine ⟨h.1, h.2.1, ?_, ?_⟩
  · intro q hq hf
    simpa using h.2.2.1 q hq hf
  · rw [h.2.2.2]
    decide

/-- C5: the single remote shell command is exactly the spec's
composition: source the environment profile, select the rustup
toolchain, enter the remote build directory, enter the (trimmed)
relative subdirectory, then the build-env prefix and the cargo
invocation with the user's subcommand and the space-joined,
order-preserving, unescaped extra arguments. -/
theorem c5_build_command :
    ∀ (o : Opts) (server : String) (d : AbsDir) (relOut : String),
      (mkPlan o server d relOut).buildCommand =
        build_command_spec o.env o.rustup_default (build_path d) relOut
          o.build_env o.command o.options := by
  intro o server d relOut
  apply String.ext
  simp only [mkPlan, build_command, build_command_spec, joinStmts,
    String.data_append, List.append_assoc, List.cons_append, List.nil_append]

/-- C6: the remote build path has the shape
`~/remote-builds/<hash of the project directory>/` and is a pure
function of the project directory alone: no option, server or relative
path influences it, and equal project directories yield equal paths. -/
theorem c6_deterministic_build_path :
    (∀ (o1 o2 : Opts) (s1 s2 : String) (d : AbsDir) (r1 r2 : String),
        (mkPlan o1 s1 d r1).buildPath = (mkPlan o2 s2 d r2).buildPath)
    ∧ (∀ (o : Opts) (server : String) (d : AbsDir) (relOut : String),
        (mkPlan o server d relOut).buildPath =
          "~/remote-builds/" ++ toString (project_dir_hash d) ++ "/") :=
  ⟨fun _ _ _ _ _ _ _ => rfl, fun _ _ _ _ => rfl⟩

/-- C7: the outbound rsync arguments always carry the adjacent pair
`--exclude target`; they carry the adjacent pair `--exclude .*` exactly
when `--transfer-hidden` was not passed; and they always carry the
`--rsync-path` option whose remote-side command creates the
`remote-builds` parent directory before running rsync, in the same
round trip. -/
theorem c7_outbound_sync_args :
    ∀ (hidden : Bool) (dir server bp : String),
      (∃ s t, s ++ ["--exclude", "target"] ++ t =
        rsync_to_args hidden dir server bp)
      ∧ ((∃ s t, s ++ ["--exclude", ".*"] ++ t =
            rsync_to_args hidden dir server bp) ↔ hidden = false)
      ∧ (∃ s t, s ++ ["--rsync-path", "mkdir -p remote-builds && rsync"] ++ t =
          rsync_to_args hidden dir server bp) := by
  intro hidden dir server bp
  refine ⟨?_, ⟨?_, ?_⟩, ?_⟩
  · cases hidden with
    | false =>
      exact ⟨["-a", "--delete", "--compress", "--info=progress2"],
        ["--exclude", ".*", "--rsync-path", "mkdir -p remote-builds && rsync",
          dir ++ "/", server ++ ":" ++ bp], by simp [rsync_to_args]⟩
    | true =>
      exact ⟨["-a", "--delete", "--compress", "--info=progress2"],
        ["--rsync-path", "mkdir -p remote-builds && rsync",
          dir ++ "/", server ++ ":" ++ bp], by simp [rsync_to_args]⟩
  · rintro ⟨s, t, h⟩
    cases hidden with
    | false => rfl
    | true =>
      exfalso
      have hm : (".*" : String) ∈ rsync_to_args true dir server bp := by
        rw [← h]
        simp
      exact dotstar_not_mem dir server bp hm
  · intro h
    subst h
    exact ⟨["-a", "--delete", "--compress", "--info=progress2", "--exclude",
      "target"],
      ["--rsync-path", "mkdir -p remote-builds && rsync",
        dir ++ "/", server ++ ":" ++ bp], by simp [rsync_to_args]⟩
  · cases hidden with
    | false =>
      exact ⟨["-a", "--delete", "--compress", "--info=progress2", "--exclude",
        "target", "--exclude", ".*"],
        [dir ++ "/", server ++ ":" ++ bp], by simp [rsync_to_args]⟩
    | true =>
      exact ⟨["-a", "--delete", "--compress", "--info=progress2", "--exclude",
        "target"],
        [dir ++ "/", server ++ ":" ++ bp], by simp [rsync_to_args]⟩

/-- C7 (witness): the hidden-file exclusion is present without
`--transfer-hidden` and absent with it. -/
theorem c7_outbound_sync_args_witness :
    (∃ s t, s ++ ["--exclude", ".*"] ++ t = rsync_to_args false "/p" "srv" "~/b/")
    ∧ ¬ (∃ s t, s ++ ["--exclude", ".*"] ++ t =
          rsync_to_args true "/p" "srv" "~/b/") := by
  constructor
  · exact (c7_outbound_sync_args false "/p" "srv" "~/b/").2.1.mpr rfl
  · intro hx
    exact absurd ((c7_outbound_sync_args true "/p" "srv" "~/b/").2.1.mp hx)
      (by decide)

/-- C8: the artifact copy-back paths exist exactly when `--copy-back`
was passed — with no attached value the whole remote target directory
maps onto the local target directory, with a file name both paths end
in `target/<name>` — the artifact sync step is attempted exactly when
`--copy-back` was passed, and the lock sync step is attempted exactly
when `--no-copy-lock` was not passed, whatever the build outcome. -/
theorem c8_copy_back :
    ∀ (o : Opts) (server : String) (d : AbsDir) (relOut : String),
      (o.copy_back = none →
        (mkPlan o server d relOut).copyBackPaths = none)
      ∧ (o.copy_back = some none →
        (mkPlan o server d relOut).copyBackPaths =
          some (server ++ ":" ++ build_path d ++ "/target/",
            dirString d ++ "/target/"))
      ∧ (∀ f, o.copy_back = some (some f) →
          ∃ ps pd, (mkPlan o server d relOut).copyBackPaths =
            some (ps ++ ("target/" ++ f), pd ++ ("target/" ++ f)))
      ∧ (∀ (ncl : Bool) (out : Step → ProcResult) (ok : Bool) (c : Option Int),
          out .rsyncOut ≠ .spawnErr → out .realpath ≠ .spawnErr →
          out .sshBuild = .ran ok c →
          (Step.rsyncArtifacts ∈ (run_pipeline o.copy_back ncl out).1
            ↔ o.copy_back.isSome = true))
      ∧ (∀ (ncl : Bool) (out : Step → ProcResult) (ok : Bool) (c : Option Int),
          out .rsyncOut ≠ .spawnErr → out .realpath ≠ .spawnErr →
          out .sshBuild = .ran ok c →
          (o.copy_back.isSome = true → out .rsyncArtifacts ≠ .spawnErr) →
          (Step.rsyncLock ∈ (run_pipeline o.copy_back ncl out).1
            ↔ ncl = false)) := by
  intro o server d relOut
  refine ⟨?_, ?_, ?_, ?_, ?_⟩
  · intro h
    simp [mkPlan, copy_back_paths, h]
  · intro h
    simp [mkPlan, copy_back_paths, h]
  · intro f h
    refine ⟨server ++ ":" ++ build_path d ++ "/", dirString d ++ "/", ?_⟩
    simp only [mkPlan, copy_back_paths, h, Option.map_some', Option.getD_some,
      Option.some.injEq, Prod.mk.injEq]
    constructor
    · apply String.ext
      simp only [String.data_append, List.append_assoc, List.cons_append,
        List.nil_append]
    · apply String.ext
      simp only [String.data_append, List.append_assoc, List.cons_append,
        List.nil_append]
  · intro ncl out ok c h1 h2 h3
    rw [run_pipeline_ran o.copy_back ncl out ok c h1 h2 h3]
    unfold after_build
    cases hcb : o.copy_back.isSome with
    | false =>
      cases hncl : ncl with
      | false =>
        cases hlk : out .rsyncLock with
        | spawnErr => simp [hcb, hncl, hlk]
        | ran a b => simp [hcb, hncl, hlk]
      | true => simp [hcb, hncl]
    | true =>
      cases hart : out .rsyncArtifacts with
      | spawnErr => simp [hcb, hart]
      | ran a b =>
        cases hncl : ncl with
        | false =>
          cases hlk : out .rsyncLock with
          | spawnErr => simp [hcb, hart, hncl, hlk]
          | ran x y => simp [hcb, hart, hncl, hlk]
        | true => simp [hcb, hart, hncl]
  · intro ncl out ok c h1 h2 h3 ha
    rw [run_pipeline_ran o.copy_back ncl out ok c h1 h2 h3]
    unfold after_build
    cases hcb : o.copy_back.isSome with
    | false =>
      cases hncl : ncl with
      | false =>
        cases hlk : out .rsyncLock with
        | spawnErr => simp [hcb, hncl, hlk]
        | ran a b => simp [hcb, hncl, hlk]
      | true => simp [hcb, hncl]
    | true =>
      cases hart : out .rsyncArtifacts with
      | spawnErr => exact absurd hart (ha hcb)
      | ran a b =>
        cases hncl : ncl with
        | false =>
          cases hlk : out .rsyncLock with
          | spawnErr => simp [hcb, hart, hncl, hlk]
          | ran x y => simp [hcb, hart, hncl, hlk]
        | true => simp [hcb, hart, hncl]

/-- C8 (witness): with `--copy-back out.bin` both artifact paths end in
`target/out.bin`, and with `--no-copy-lock` absent the lock step runs. -/
theorem c8_copy_back_witness :
    (∃ ps pd,
      (mkPlan ⟨none, "RUST_BACKTRACE=1", "stable", "~/.cargo/env",
          some (some "out.bin"), false, false, "build", ["--release"]⟩
        "srv" ["proj", "home"] "sub").copyBackPaths =
          some (ps ++ ("target/" ++ "out.bin"), pd ++ ("target/" ++ "out.bin")))
    ∧ Step.rsyncLock ∈ (run_pipeline (some (some "out.bin")) false
        (fun _ => ProcResult.ran true (some 0))).1 := by
  constructor
  · exact (c8_copy_back ⟨none, "RUST_BACKTRACE=1", "stable", "~/.cargo/env",
        some (some "out.bin"), false, false, "build", ["--release"]⟩
      "srv" ["proj", "home"] "sub").2.2.1 "out.bin" rfl
  · exact ((c8_copy_back ⟨none, "RUST_BACKTRACE=1", "stable", "~/.cargo/env",
        some (some "out.bin"), false, false, "build", ["--release"]⟩
      "srv" ["proj", "home"] "sub").2.2.2.2 false
      (fun _ => ProcResult.ran true (some 0)) true (some 0)
      (by decide) (by decide) rfl (by decide)).mpr rfl

end CargoRemote
